import Mathlib

/-!
Shallow embedding of the Travel_bucket_backend authentication server
(src/unnamed/part_000): the Mongoose user model, the signup and login
controllers, the startup database check, and models of the two external
libraries the controllers call (bcryptjs and jsonwebtoken).

State is threaded explicitly: the credential store is a list of user
documents, the fresh document id, the random bcrypt salt and the clock
are parameters, and unexpected rejections of the external calls are
injected through a record of fault flags (a thrown rejection lands in
the controller catch block).
-/

namespace TravelBucket

/-- JS truthiness of a request-body or environment field that is either
absent (undefined, modelled as none) or a string: the check `!x` in the
controllers succeeds exactly when the field is absent or the empty
string. -/
def truthyStr : Option String → Bool
  | none => false
  | some s => !(s == "")

/-- A persisted user document, after userSchema: username, email and
password are required strings, username and email each carry a unique
index. The id is assigned by the store on creation. -/
structure UserRec where
  _id : Nat
  username : String
  email : String
  password : String
deriving Repr, DecidableEq

/-- The destructuring `const (password: pass, ...rest) = user._doc` in
both controllers: the user document with the password field removed. -/
structure SanitizedUser where
  _id : Nat
  username : String
  email : String
deriving Repr, DecidableEq

/-- Strip the password field from a user document. -/
def sanitize (u : UserRec) : SanitizedUser :=
  { _id := u._id, username := u.username, email := u.email }

/-- The process environment variables the server reads. -/
structure Env where
  mongoUri : Option String
  jwtSecret : Option String
  nodeEnv : Option String
deriving Repr, DecidableEq

/-- Modelled from the spec: bcryptjs is an external library, not in
src/. The digest header standing for the algorithm and cost tag of a
bcrypt digest string. -/
def bcryptHeader : List Char := ['$', '2', 'b', '$', '1', '0', '$']

/-- Modelled from the spec: the per-call random salt embedded in the
digest, rendered as salt copies of a non-separator character. -/
def saltChars (salt : Nat) : List Char := List.replicate salt 's'

/-- Modelled from the spec: bcryptjs.hashSync(password, 10) with the
random salt made an explicit parameter. The digest embeds the salt
behind a fixed header and is never equal to the plaintext. -/
def bcryptHashSync (plain : String) (salt : Nat) : String :=
  ⟨bcryptHeader ++ saltChars salt ++ '$' :: plain.data⟩

/-- Modelled from the spec: bcryptjs.compareSync(plain, digest)
recomputes the digest of plain from the salt embedded in digest and
compares. -/
def bcryptCompareSync (plain digest : String) : Bool :=
  let s := (digest.data.drop 7).takeWhile (fun c => c != '$')
  decide (digest.data = bcryptHeader ++ s ++ '$' :: plain.data)

/-- Modelled from the spec: jsonwebtoken is an external library, not in
src/. A signed token carries the subject id from the payload, the
signing secret, the issuance time and the expiry. -/
structure Jwt where
  sub : Nat
  secret : String
  iat : Nat
  exp : Nat
deriving Repr, DecidableEq

/-- Four days in seconds, the "4d" expiresIn argument. -/
def fourDaysSec : Nat := 4 * 24 * 60 * 60

/-- Four days in milliseconds, the cookie maxAge 4 * 24 * 60 * 60 * 1000. -/
def fourDaysMs : Nat := 4 * 24 * 60 * 60 * 1000

/-- Modelled from the spec: jwt.sign with payload carrying the user id,
the signing secret, and expiresIn "4d", issued at time now. -/
def jwtSign (id : Nat) (secret : String) (now : Nat) : Jwt :=
  { sub := id, secret := secret, iat := now, exp := now + fourDaysSec }

/-- The SameSite attribute of a cookie. -/
inductive SameSiteAttr
  | lax
  | strict
  | noneValue
deriving Repr, DecidableEq

/-- A response cookie as configured by res.cookie in the controllers. -/
structure Cookie where
  name : String
  value : Jwt
  httpOnly : Bool
  secure : Bool
  sameSite : SameSiteAttr
  maxAge : Nat
deriving Repr, DecidableEq

/-- The call res.cookie("X_TTMS_access_token", token, ...) shared by
both controllers: httpOnly, secure only when NODE_ENV === production,
sameSite lax, maxAge four days. -/
def mkAuthCookie (env : Env) (token : Jwt) : Cookie :=
  { name := "X_TTMS_access_token", value := token, httpOnly := true,
    secure := env.nodeEnv == some "production", sameSite := SameSiteAttr.lax,
    maxAge := fourDaysMs }

/-- The JSON response of a controller: HTTP status, the success flag,
the sanitized user when one is returned, and the cookie when one is
set. -/
structure AuthResponse where
  status : Nat
  success : Bool
  user : Option SanitizedUser
  cookie : Option Cookie
deriving Repr, DecidableEq

/-- A failure response: given status, success false, no user, no
cookie. -/
def errorResponse (code : Nat) : AuthResponse :=
  { status := code, success := false, user := none, cookie := none }

/-- The outcome of handling one request: the response and the store
state afterwards. -/
structure Outcome where
  resp : AuthResponse
  db : List UserRec
deriving Repr, DecidableEq

/-- Fault injection for the external dependencies: a true flag makes
the corresponding call reject, landing in the controller catch block. -/
structure Faults where
  findFail : Bool
  hashFail : Bool
  saveFail : Bool
  signFail : Bool
deriving Repr, DecidableEq

/-- Normal operation: no dependency call rejects. -/
def noFaults : Faults := ⟨false, false, false, false⟩

/-- User.findOne with an email filter: the first stored document whose
email equals the query. -/
def findOneByEmail (db : List UserRec) (email : String) : Option UserRec :=
  db.find? (fun u => u.email == email)

/-- newUser.save(): the store enforces the unique indexes that
userSchema declares on username and email, rejecting a duplicate of
either with a duplicate-key error; otherwise the document is appended. -/
def saveUser (db : List UserRec) (u : UserRec) : Except String (List UserRec) :=
  if db.any (fun v => v.username == u.username || v.email == u.email) then
    Except.error "E11000 duplicate key error"
  else
    Except.ok (db ++ [u])

/-- The signup request body. -/
structure SignupBody where
  username : Option String
  email : Option String
  password : Option String
deriving Repr, DecidableEq

/-- The login request body. -/
structure LoginBody where
  email : Option String
  password : Option String
deriving Repr, DecidableEq

/-- Controller signupController (src/unnamed/part_000 lines 48 to 103):
validate presence, check the email for a duplicate, hash the password,
persist, require JWT_SECRET, sign a token, set the cookie and answer
201; any rejection along the way is caught and answered 500. -/
def signupController (env : Env) (faults : Faults) (db : List UserRec)
    (newId : Nat) (salt : Nat) (now : Nat) (body : SignupBody) : Outcome :=
  if !truthyStr body.username || !truthyStr body.email || !truthyStr body.password then
    { resp := errorResponse 400, db := db }
  else if faults.findFail then
    { resp := errorResponse 500, db := db }
  else
    match findOneByEmail db (body.email.getD "") with
    | some _ => { resp := errorResponse 409, db := db }
    | none =>
      if faults.hashFail then
        { resp := errorResponse 500, db := db }
      else
        let newUser : UserRec :=
          { _id := newId, username := body.username.getD "",
            email := body.email.getD "",
            password := bcryptHashSync (body.password.getD "") salt }
        if faults.saveFail then
          { resp := errorResponse 500, db := db }
        else
          match saveUser db newUser with
          | Except.error _ => { resp := errorResponse 500, db := db }
          | Except.ok saved =>
            if !truthyStr env.jwtSecret || faults.signFail then
              { resp := errorResponse 500, db := saved }
            else
              let token := jwtSign newUser._id (env.jwtSecret.getD "") now
              { resp := { status := 201, success := true,
                          user := some (sanitize newUser),
                          cookie := some (mkAuthCookie env token) },
                db := saved }

/-- Controller loginController (src/unnamed/part_000 lines 105 to 152):
validate presence, look the email up, verify the password against the
stored digest, require JWT_SECRET, sign a token, set the cookie and
answer 200; any rejection is caught and answered 500. The store is
never written. -/
def loginController (env : Env) (faults : Faults) (db : List UserRec)
    (now : Nat) (body : LoginBody) : Outcome :=
  if !truthyStr body.email || !truthyStr body.password then
    { resp := errorResponse 400, db := db }
  else if faults.findFail then
    { resp := errorResponse 500, db := db }
  else
    match findOneByEmail db (body.email.getD "") with
    | none => { resp := errorResponse 404, db := db }
    | some validUser =>
      if faults.hashFail then
        { resp := errorResponse 500, db := db }
      else if !bcryptCompareSync (body.password.getD "") validUser.password then
        { resp := errorResponse 401, db := db }
      else if !truthyStr env.jwtSecret || faults.signFail then
        { resp := errorResponse 500, db := db }
      else
        let token := jwtSign validUser._id (env.jwtSecret.getD "") now
        { resp := { status := 200, success := true,
                    user := some (sanitize validUser),
                    cookie := some (mkAuthCookie env token) },
          db := db }

/-- Function connectDB (src/unnamed/part_000 lines 30 to 42): the
process exits at startup exactly when MONGO_URI is falsy or the
connection attempt rejects. JWT_SECRET is not consulted here. -/
def startupExits (env : Env) (connectFault : Bool) : Bool :=
  !truthyStr env.mongoUri || connectFault



/-- A process environment with all variables a request needs. -/
def envOk : Env :=
  { mongoUri := some "mongodb://localhost:27017/tb", jwtSecret := some "topsecret",
    nodeEnv := none }

/-- A process environment whose JWT_SECRET is absent. -/
def envNoSecret : Env :=
  { mongoUri := some "mongodb://localhost:27017/tb", jwtSecret := none, nodeEnv := none }

/-- A stored user, registered earlier with password alicepw. -/
def aliceRec : UserRec :=
  { _id := 1, username := "alice", email := "a@x.com",
    password := bcryptHashSync "alicepw" 2 }

/-- A store holding the single user alice. -/
def dbAlice : List UserRec := [aliceRec]

/-- A fresh registration request that collides with nothing in dbAlice. -/
def bobBody : SignupBody :=
  { username := some "bob", email := some "b@x.com", password := some "pw" }

theorem takeWhile_saltChars (salt : Nat) (rest : List Char) :
    (saltChars salt ++ '$' :: rest).takeWhile (fun c => c != '$') = saltChars salt := by
  induction salt with
  | zero => simp [saltChars]
  | succ n ih =>
    simp only [saltChars, List.replicate_succ, List.cons_append, List.takeWhile_cons] at ih ⊢
    simp [ih]

theorem bcryptCompareSync_hashSync (plain : String) (salt : Nat) :
    bcryptCompareSync plain (bcryptHashSync plain salt) = true := by
  simp [bcryptCompareSync, bcryptHashSync, bcryptHeader, takeWhile_saltChars]

theorem bcryptHashSync_ne (plain : String) (salt : Nat) :
    bcryptHashSync plain salt ≠ plain := by
  intro h
  have h2 := congrArg (fun s : String => s.data.length) h
  simp [bcryptHashSync, bcryptHeader, saltChars] at h2
  omega

theorem findOneByEmail_eq_none {db : List UserRec} {e : String}
    (h : ∀ u ∈ db, u.email ≠ e) : findOneByEmail db e = none := by
  simp [findOneByEmail, List.find?_eq_none]
  exact h

theorem saveUser_ok {db : List UserRec} {u : UserRec}
    (hname : ∀ v ∈ db, v.username ≠ u.username)
    (hmail : ∀ v ∈ db, v.email ≠ u.email) :
    saveUser db u = Except.ok (db ++ [u]) := by
  have hany : db.any (fun v => v.username == u.username || v.email == u.email) = false := by
    simp [List.any_eq_false, not_or]
    exact fun v hv => ⟨hname v hv, hmail v hv⟩
  simp [saveUser, hany]

theorem saveUser_ok_inv {db : List UserRec} {u : UserRec} {saved : List UserRec}
    (h : saveUser db u = Except.ok saved) : saved = db ++ [u] := by
  unfold saveUser at h
  split at h
  · cases h
  · cases h; rfl

theorem signup_success_eq (env : Env) (db : List UserRec) (newId salt now : Nat)
    (body : SignupBody)
    (hu : truthyStr body.username = true)
    (he : truthyStr body.email = true)
    (hp : truthyStr body.password = true)
    (hsec : truthyStr env.jwtSecret = true)
    (hmail : ∀ u ∈ db, u.email ≠ body.email.getD "")
    (hname : ∀ u ∈ db, u.username ≠ body.username.getD "") :
    signupController env noFaults db newId salt now body =
      { resp := { status := 201, success := true,
                  user := some { _id := newId, username := body.username.getD "",
                                 email := body.email.getD "" },
                  cookie := some (mkAuthCookie env
                    (jwtSign newId (env.jwtSecret.getD "") now)) },
        db := db ++ [{ _id := newId, username := body.username.getD "",
                       email := body.email.getD "",
                       password := bcryptHashSync (body.password.getD "") salt }] } := by
  have hfind := findOneByEmail_eq_none hmail
  have hsave := @saveUser_ok db
      { _id := newId, username := body.username.getD "",
        email := body.email.getD "",
        password := bcryptHashSync (body.password.getD "") salt }
      hname hmail
  simp [signupController, hu, he, hp, hsec, hfind, hsave, noFaults, sanitize]

theorem login_success_eq (env : Env) (db : List UserRec) (now : Nat)
    (body : LoginBody) (u : UserRec)
    (he : truthyStr body.email = true)
    (hp : truthyStr body.password = true)
    (hfind : findOneByEmail db (body.email.getD "") = some u)
    (hverify : bcryptCompareSync (body.password.getD "") u.password = true)
    (hsec : truthyStr env.jwtSecret = true) :
    loginController env noFaults db now body =
      { resp := { status := 200, success := true,
                  user := some (sanitize u),
                  cookie := some (mkAuthCookie env
                    (jwtSign u._id (env.jwtSecret.getD "") now)) },
        db := db } := by
  simp [loginController, he, hp, hfind, hverify, hsec, noFaults]

theorem login_db_unchanged (env : Env) (faults : Faults) (db : List UserRec)
    (now : Nat) (body : LoginBody) :
    (loginController env faults db now body).db = db := by
  unfold loginController
  repeat' split
  all_goals rfl

theorem signup_db_cases (env : Env) (faults : Faults) (db : List UserRec)
    (newId salt now : Nat) (body : SignupBody) :
    (signupController env faults db newId salt now body).db = db ∨
    (signupController env faults db newId salt now body).db =
      db ++ [{ _id := newId, username := body.username.getD "",
               email := body.email.getD "",
               password := bcryptHashSync (body.password.getD "") salt }] := by
  simp only [signupController]
  repeat' split
  all_goals first
    | (left; rfl)
    | (right; rename_i saved heq hcond; exact saveUser_ok_inv heq)

/-- C1 counterexample: a registration whose three fields are present and
whose email matches no stored record, yet the flow answers 500 with the
store unchanged and no cookie, because the username collides with the
unique index on username and the insert is rejected. -/
theorem C1_counterexample :
    (signupController envOk noFaults dbAlice 2 5 100
        { username := some "alice", email := some "b@x.com", password := some "pw" }).resp.status = 500 ∧
    (signupController envOk noFaults dbAlice 2 5 100
        { username := some "alice", email := some "b@x.com", password := some "pw" }).resp.status ≠ 201 ∧
    (signupController envOk noFaults dbAlice 2 5 100
        { username := some "alice", email := some "b@x.com", password := some "pw" }).db = dbAlice ∧
    (signupController envOk noFaults dbAlice 2 5 100
        { username := some "alice", email := some "b@x.com", password := some "pw" }).resp.cookie = none := by
  decide

/-- C1 (amended): for every registration request whose username, email
and password are all present, whose email matches no existing record,
and whose username also matches no existing record, under normal
operation with the signing secret set, the flow persists exactly one new
record whose password field holds the bcrypt digest of the plaintext
(never the plaintext itself, and verify accepts it), responds 201, sets
the session cookie, and returns a user object without the password
field. -/
theorem C1_amended_signup_success (env : Env) (db : List UserRec)
    (newId salt now : Nat) (body : SignupBody)
    (hu : truthyStr body.username = true)
    (he : truthyStr body.email = true)
    (hp : truthyStr body.password = true)
    (hsec : truthyStr env.jwtSecret = true)
    (hmail : ∀ u ∈ db, u.email ≠ body.email.getD "")
    (hname : ∀ u ∈ db, u.username ≠ body.username.getD "") :
    (signupController env noFaults db newId salt now body).resp.status = 201 ∧
    (signupController env noFaults db newId salt now body).db =
      db ++ [{ _id := newId, username := body.username.getD "",
               email := body.email.getD "",
               password := bcryptHashSync (body.password.getD "") salt }] ∧
    bcryptHashSync (body.password.getD "") salt ≠ body.password.getD "" ∧
    bcryptCompareSync (body.password.getD "")
      (bcryptHashSync (body.password.getD "") salt) = true ∧
    (signupController env noFaults db newId salt now body).resp.cookie =
      some (mkAuthCookie env (jwtSign newId (env.jwtSecret.getD "") now)) ∧
    (signupController env noFaults db newId salt now body).resp.user =
      some { _id := newId, username := body.username.getD "",
             email := body.email.getD "" } := by
  have h := signup_success_eq env db newId salt now body hu he hp hsec hmail hname
  refine ⟨?_, ?_, bcryptHashSync_ne _ _, bcryptCompareSync_hashSync _ _, ?_, ?_⟩ <;> rw [h]

/-- C1 witness: the amended theorem applied to a concrete fresh
registration against dbAlice. -/
theorem C1_amended_witness :
    (signupController envOk noFaults dbAlice 2 5 100 bobBody).resp.status = 201 :=
  (C1_amended_signup_success envOk dbAlice 2 5 100 bobBody (by decide) (by decide)
    (by decide) (by decide) (by decide) (by decide)).1

/-- C2: for every login request with both fields present, whose email
is found in the store and whose password verifies against the stored
digest, under normal operation with the secret set, the flow answers
200, the cookie carries a token whose subject is the record id and
whose expiry is four days after issuance, the user is returned with the
digest stripped, and the store is untouched. -/
theorem C2_login_success (env : Env) (db : List UserRec) (now : Nat)
    (body : LoginBody) (u : UserRec)
    (he : truthyStr body.email = true)
    (hp : truthyStr body.password = true)
    (hfind : findOneByEmail db (body.email.getD "") = some u)
    (hverify : bcryptCompareSync (body.password.getD "") u.password = true)
    (hsec : truthyStr env.jwtSecret = true) :
    (loginController env noFaults db now body).resp.status = 200 ∧
    (loginController env noFaults db now body).resp.cookie =
      some (mkAuthCookie env (jwtSign u._id (env.jwtSecret.getD "") now)) ∧
    (jwtSign u._id (env.jwtSecret.getD "") now).sub = u._id ∧
    (jwtSign u._id (env.jwtSecret.getD "") now).exp = now + 4 * 24 * 60 * 60 ∧
    (loginController env noFaults db now body).resp.user = some (sanitize u) ∧
    (loginController env noFaults db now body).db = db := by
  have h := login_success_eq env db now body u he hp hfind hverify hsec
  refine ⟨?_, ?_, rfl, rfl, ?_, ?_⟩ <;> rw [h]

/-- C2 witness: a concrete login of alice with the correct password. -/
theorem C2_witness :
    (loginController envOk noFaults dbAlice 100
        { email := some "a@x.com", password := some "alicepw" }).resp.status = 200 :=
  (C2_login_success envOk dbAlice 100
    { email := some "a@x.com", password := some "alicepw" } aliceRec
    (by decide) (by decide) (by decide) (by decide) (by decide)).1

/-- C3: for every registration request, a missing username, email or
password yields 400 with the store unchanged and no cookie set, for any
store content and any dependency faults (so validation precedes the
duplicate check); otherwise a stored record with the same email yields
409 with the store unchanged and no cookie set. -/
theorem C3_signup_failures (env : Env) (faults : Faults) (db : List UserRec)
    (newId salt now : Nat) (body : SignupBody) :
    ((truthyStr body.username = false ∨ truthyStr body.email = false ∨
        truthyStr body.password = false) →
      signupController env faults db newId salt now body =
        { resp := errorResponse 400, db := db }) ∧
    (∀ u : UserRec, truthyStr body.username = true → truthyStr body.email = true →
      truthyStr body.password = true → faults.findFail = false →
      findOneByEmail db (body.email.getD "") = some u →
      signupController env faults db newId salt now body =
        { resp := errorResponse 409, db := db }) := by
  constructor
  · intro h
    rcases h with h | h | h <;> simp [signupController, h]
  · intro u hu he hp hff hfind
    simp [signupController, hu, he, hp, hff, hfind]

/-- C3 witness: a concrete registration with a missing email, and a
concrete registration whose email is already stored. -/
theorem C3_witness :
    signupController envOk noFaults dbAlice 2 5 100
        { username := some "bob", email := none, password := some "pw" } =
      { resp := errorResponse 400, db := dbAlice } ∧
    signupController envOk noFaults dbAlice 2 5 100
        { username := some "bob", email := some "a@x.com", password := some "pw" } =
      { resp := errorResponse 409, db := dbAlice } :=
  ⟨(C3_signup_failures envOk noFaults dbAlice 2 5 100
      { username := some "bob", email := none, password := some "pw" }).1
      (Or.inr (Or.inl rfl)),
   (C3_signup_failures envOk noFaults dbAlice 2 5 100
      { username := some "bob", email := some "a@x.com", password := some "pw" }).2
      aliceRec rfl rfl rfl rfl (by decide)⟩

/-- C4: for every login request, a missing email or password yields 400
for any store and any faults; otherwise an email matching no record
yields 404; otherwise a password that does not verify against the
stored digest yields 401. In each case the store is unchanged and no
cookie is set, so no token is issued. -/
theorem C4_login_failures (env : Env) (faults : Faults) (db : List UserRec)
    (now : Nat) (body : LoginBody) :
    ((truthyStr body.email = false ∨ truthyStr body.password = false) →
      loginController env faults db now body = { resp := errorResponse 400, db := db }) ∧
    (truthyStr body.email = true → truthyStr body.password = true →
      faults.findFail = false →
      findOneByEmail db (body.email.getD "") = none →
      loginController env faults db now body = { resp := errorResponse 404, db := db }) ∧
    (∀ u : UserRec, truthyStr body.email = true → truthyStr body.password = true →
      faults.findFail = false → faults.hashFail = false →
      findOneByEmail db (body.email.getD "") = some u →
      bcryptCompareSync (body.password.getD "") u.password = false →
      loginController env faults db now body = { resp := errorResponse 401, db := db }) := by
  refine ⟨?_, ?_, ?_⟩
  · intro h; rcases h with h | h <;> simp [loginController, h]
  · intro he hp hff hfind
    simp [loginController, he, hp, hff, hfind]
  · intro u he hp hff hhf hfind hverify
    simp [loginController, he, hp, hff, hhf, hfind, hverify]

/-- C4 witness: concrete logins with a missing password, an unknown
email, and a wrong password. -/
theorem C4_witness :
    loginController envOk noFaults dbAlice 100 { email := some "a@x.com", password := none } =
      { resp := errorResponse 400, db := dbAlice } ∧
    loginController envOk noFaults dbAlice 100 { email := some "z@x.com", password := some "pw" } =
      { resp := errorResponse 404, db := dbAlice } ∧
    loginController envOk noFaults dbAlice 100 { email := some "a@x.com", password := some "wrong" } =
      { resp := errorResponse 401, db := dbAlice } :=
  ⟨(C4_login_failures envOk noFaults dbAlice 100
      { email := some "a@x.com", password := none }).1 (Or.inr rfl),
   (C4_login_failures envOk noFaults dbAlice 100
      { email := some "z@x.com", password := some "pw" }).2.1 rfl rfl rfl (by decide),
   (C4_login_failures envOk noFaults dbAlice 100
      { email := some "a@x.com", password := some "wrong" }).2.2 aliceRec rfl rfl rfl rfl
      (by decide) (by decide)⟩

/-- C5: a registration whose dependencies reject unexpectedly is
answered 500; a rejection of the find, the hash or the save leaves the
store unchanged, while a failure after the save (the signing rejecting,
or JWT_SECRET found absent at request time) leaves the freshly
persisted record in the store: nothing rolls it back. -/
theorem C5_signup_dependency_failures (env : Env) (f : Faults) (db : List UserRec)
    (newId salt now : Nat) (body : SignupBody)
    (hu : truthyStr body.username = true)
    (he : truthyStr body.email = true)
    (hp : truthyStr body.password = true)
    (hmail : ∀ u ∈ db, u.email ≠ body.email.getD "")
    (hname : ∀ u ∈ db, u.username ≠ body.username.getD "") :
    (f.findFail = true →
      signupController env f db newId salt now body =
        { resp := errorResponse 500, db := db }) ∧
    (f.findFail = false → f.hashFail = true →
      signupController env f db newId salt now body =
        { resp := errorResponse 500, db := db }) ∧
    (f.findFail = false → f.hashFail = false → f.saveFail = true →
      signupController env f db newId salt now body =
        { resp := errorResponse 500, db := db }) ∧
    (f.findFail = false → f.hashFail = false → f.saveFail = false →
      (f.signFail = true ∨ truthyStr env.jwtSecret = false) →
      signupController env f db newId salt now body =
        { resp := errorResponse 500,
          db := db ++ [{ _id := newId, username := body.username.getD "",
                         email := body.email.getD "",
                         password := bcryptHashSync (body.password.getD "") salt }] }) := by
  have hfind := findOneByEmail_eq_none hmail
  have hsave := @saveUser_ok db
      { _id := newId, username := body.username.getD "",
        email := body.email.getD "",
        password := bcryptHashSync (body.password.getD "") salt }
      hname hmail
  refine ⟨?_, ?_, ?_, ?_⟩
  · intro h1; simp [signupController, hu, he, hp, h1]
  · intro h1 h2; simp [signupController, hu, he, hp, h1, h2, hfind]
  · intro h1 h2 h3; simp [signupController, hu, he, hp, h1, h2, h3, hfind]
  · intro h1 h2 h3 h4
    rcases h4 with h4 | h4 <;>
      simp [signupController, hu, he, hp, h1, h2, h3, h4, hfind, hsave]

/-- C5 witness: a concrete find rejection leaving the store unchanged,
and a concrete registration against an environment with no JWT_SECRET,
answered 500 with the new record still persisted. -/
theorem C5_witness :
    signupController envOk ⟨true, false, false, false⟩ dbAlice 2 5 100 bobBody =
      { resp := errorResponse 500, db := dbAlice } ∧
    signupController envNoSecret noFaults dbAlice 2 5 100 bobBody =
      { resp := errorResponse 500,
        db := dbAlice ++ [{ _id := 2, username := "bob", email := "b@x.com",
                            password := bcryptHashSync "pw" 5 }] } :=
  ⟨(C5_signup_dependency_failures envOk ⟨true, false, false, false⟩ dbAlice 2 5 100 bobBody
      (by decide) (by decide) (by decide) (by decide) (by decide)).1 rfl,
   (C5_signup_dependency_failures envNoSecret noFaults dbAlice 2 5 100 bobBody
      (by decide) (by decide) (by decide) (by decide) (by decide)).2.2.2 rfl rfl rfl
      (Or.inr rfl)⟩

/-- C6 counterexample: with JWT_SECRET absent but MONGO_URI present the
process does not exit at startup, and the absence is first detected
during request handling, where a valid registration is answered 500. -/
theorem C6_counterexample :
    startupExits envNoSecret false = false ∧
    (signupController envNoSecret noFaults dbAlice 2 5 100 bobBody).resp.status = 500 := by
  decide

/-- C6 (amended): an absent MONGO_URI is fatal at startup, and with
MONGO_URI present and the connection succeeding the process starts
whatever JWT_SECRET holds; an absent JWT_SECRET is instead first
detected during request handling, where an otherwise valid registration
is answered 500. -/
theorem C6_amended_startup (env : Env) (connectFault : Bool) (db : List UserRec)
    (newId salt now : Nat) (body : SignupBody) :
    (truthyStr env.mongoUri = false → startupExits env connectFault = true) ∧
    (truthyStr env.mongoUri = true → startupExits env false = false) ∧
    (truthyStr env.jwtSecret = false →
      truthyStr body.username = true → truthyStr body.email = true →
      truthyStr body.password = true →
      (∀ u ∈ db, u.email ≠ body.email.getD "") →
      (∀ u ∈ db, u.username ≠ body.username.getD "") →
      (signupController env noFaults db newId salt now body).resp.status = 500) := by
  refine ⟨?_, ?_, ?_⟩
  · intro h; simp [startupExits, h]
  · intro h; simp [startupExits, h]
  · intro hsec hu he hp hmail hname
    have hfind := findOneByEmail_eq_none hmail
    have hsave := @saveUser_ok db
        { _id := newId, username := body.username.getD "",
          email := body.email.getD "",
          password := bcryptHashSync (body.password.getD "") salt }
        hname hmail
    simp [signupController, hu, he, hp, hsec, hfind, hsave, noFaults, errorResponse]

/-- C6 witness: the amended theorem at concrete environments, one with
no MONGO_URI and one with no JWT_SECRET. -/
theorem C6_amended_witness :
    startupExits { mongoUri := none, jwtSecret := some "topsecret", nodeEnv := none } false = true ∧
    startupExits envNoSecret false = false ∧
    (signupController envNoSecret noFaults dbAlice 2 5 100 bobBody).resp.status = 500 :=
  ⟨(C6_amended_startup { mongoUri := none, jwtSecret := some "topsecret", nodeEnv := none }
      false dbAlice 2 5 100 bobBody).1 rfl,
   (C6_amended_startup envNoSecret false dbAlice 2 5 100 bobBody).2.1 rfl,
   (C6_amended_startup envNoSecret false dbAlice 2 5 100 bobBody).2.2 rfl
      (by decide) (by decide) (by decide) (by decide) (by decide)⟩

/-- C7: on every successful registration and every successful login the
token travels in a cookie named X_TTMS_access_token, HTTP-only, secure
exactly when NODE_ENV is production, SameSite lax, with max-age four
days in milliseconds, and the signed token expires four days after its
issuance time. -/
theorem C7_session_cookie (env : Env) (db : List UserRec)
    (newId salt now : Nat) (body : SignupBody) (lbody : LoginBody) (u : UserRec) :
    (truthyStr body.username = true → truthyStr body.email = true →
      truthyStr body.password = true → truthyStr env.jwtSecret = true →
      (∀ v ∈ db, v.email ≠ body.email.getD "") →
      (∀ v ∈ db, v.username ≠ body.username.getD "") →
      (signupController env noFaults db newId salt now body).resp.cookie =
        some { name := "X_TTMS_access_token",
               value := jwtSign newId (env.jwtSecret.getD "") now,
               httpOnly := true,
               secure := env.nodeEnv == some "production",
               sameSite := SameSiteAttr.lax,
               maxAge := 4 * 24 * 60 * 60 * 1000 }) ∧
    (truthyStr lbody.email = true → truthyStr lbody.password = true →
      findOneByEmail db (lbody.email.getD "") = some u →
      bcryptCompareSync (lbody.password.getD "") u.password = true →
      truthyStr env.jwtSecret = true →
      (loginController env noFaults db now lbody).resp.cookie =
        some { name := "X_TTMS_access_token",
               value := jwtSign u._id (env.jwtSecret.getD "") now,
               httpOnly := true,
               secure := env.nodeEnv == some "production",
               sameSite := SameSiteAttr.lax,
               maxAge := 4 * 24 * 60 * 60 * 1000 }) ∧
    (∀ id s t, (jwtSign id s t).exp = t + 4 * 24 * 60 * 60 ∧ (jwtSign id s t).iat = t) := by
  refine ⟨?_, ?_, fun id s t => ⟨rfl, rfl⟩⟩
  · intro hu he hp hsec hmail hname
    rw [signup_success_eq env db newId salt now body hu he hp hsec hmail hname]
    rfl
  · intro he hp hfind hverify hsec
    rw [login_success_eq env db now lbody u he hp hfind hverify hsec]
    rfl

/-- C7 witness: the cookie of a concrete successful registration and of
a concrete successful login. -/
theorem C7_witness :
    (signupController envOk noFaults dbAlice 2 5 100 bobBody).resp.cookie =
      some { name := "X_TTMS_access_token",
             value := jwtSign 2 "topsecret" 100,
             httpOnly := true, secure := false,
             sameSite := SameSiteAttr.lax,
             maxAge := 4 * 24 * 60 * 60 * 1000 } ∧
    (loginController envOk noFaults dbAlice 100
        { email := some "a@x.com", password := some "alicepw" }).resp.cookie =
      some { name := "X_TTMS_access_token",
             value := jwtSign 1 "topsecret" 100,
             httpOnly := true, secure := false,
             sameSite := SameSiteAttr.lax,
             maxAge := 4 * 24 * 60 * 60 * 1000 } :=
  ⟨by
    have h := (C7_session_cookie envOk dbAlice 2 5 100 bobBody
        { email := some "a@x.com", password := some "alicepw" } aliceRec).1
        (by decide) (by decide) (by decide) (by decide) (by decide) (by decide)
    simpa using h,
   by
    have h := (C7_session_cookie envOk dbAlice 2 5 100 bobBody
        { email := some "a@x.com", password := some "alicepw" } aliceRec).2.1
        (by decide) (by decide) (by decide) (by decide) (by decide)
    simpa using h⟩

/-- C8: no operation deletes or mutates an existing user record: every
login leaves the store exactly as it was, and every registration either
leaves the store unchanged or appends at most one new record at the
end, keeping every earlier record in place. -/
theorem C8_store_frame (env : Env) (faults : Faults) (db : List UserRec)
    (newId salt now : Nat) (sbody : SignupBody) (lbody : LoginBody) :
    (loginController env faults db now lbody).db = db ∧
    ((signupController env faults db newId salt now sbody).db = db ∨
      ∃ r : UserRec, (signupController env faults db newId salt now sbody).db = db ++ [r]) := by
  refine ⟨login_db_unchanged env faults db now lbody, ?_⟩
  rcases signup_db_cases env faults db newId salt now sbody with h | h
  · exact Or.inl h
  · exact Or.inr ⟨_, h⟩

/-- C9: field presence is JS truthiness, so an empty-string field is
treated as absent: a registration with username, email or password
equal to the empty string is answered 400 with the store unchanged, and
a login with email or password equal to the empty string is answered
400, in every store state and under every fault assignment. -/
theorem C9_falsy_fields (env : Env) (faults : Faults) (db : List UserRec)
    (newId salt now : Nat) (sbody : SignupBody) (lbody : LoginBody) :
    truthyStr (some "") = false ∧ truthyStr none = false ∧
    ((sbody.username = some "" ∨ sbody.email = some "" ∨ sbody.password = some "") →
      signupController env faults db newId salt now sbody =
        { resp := errorResponse 400, db := db }) ∧
    ((lbody.email = some "" ∨ lbody.password = some "") →
      loginController env faults db now lbody =
        { resp := errorResponse 400, db := db }) := by
  refine ⟨rfl, rfl, ?_, ?_⟩
  · intro h
    rcases h with h | h | h <;> simp [signupController, h, truthyStr]
  · intro h
    rcases h with h | h <;> simp [loginController, h, truthyStr]

/-- C9 witness: a concrete registration with an empty-string password
and a concrete login with an empty-string email are both answered 400. -/
theorem C9_witness :
    signupController envOk noFaults dbAlice 2 5 100
        { username := some "bob", email := some "b@x.com", password := some "" } =
      { resp := errorResponse 400, db := dbAlice } ∧
    loginController envOk noFaults dbAlice 100
        { email := some "", password := some "pw" } =
      { resp := errorResponse 400, db := dbAlice } :=
  ⟨(C9_falsy_fields envOk noFaults dbAlice 2 5 100
      { username := some "bob", email := some "b@x.com", password := some "" }
      { email := some "", password := some "pw" }).2.2.1 (Or.inr (Or.inr rfl)),
   (C9_falsy_fields envOk noFaults dbAlice 2 5 100
      { username := some "bob", email := some "b@x.com", password := some "" }
      { email := some "", password := some "pw" }).2.2.2 (Or.inl rfl)⟩

/-- C10: the duplicate check consults only the email: a registration
whose email matches no stored record but whose username duplicates a
stored record is not answered 409; the flow hashes and attempts the
insert, the unique index on username rejects it, and the catch block
answers 500 with the store unchanged. -/
theorem C10_username_dup_500 (env : Env) (db : List UserRec)
    (newId salt now : Nat) (body : SignupBody) (v : UserRec)
    (hu : truthyStr body.username = true)
    (he : truthyStr body.email = true)
    (hp : truthyStr body.password = true)
    (hmail : ∀ u ∈ db, u.email ≠ body.email.getD "")
    (hv : v ∈ db) (hvname : v.username = body.username.getD "") :
    (signupController env noFaults db newId salt now body).resp.status ≠ 409 ∧
    signupController env noFaults db newId salt now body =
      { resp := errorResponse 500, db := db } := by
  have hfind := findOneByEmail_eq_none hmail
  have hsave : saveUser db
      { _id := newId, username := body.username.getD "",
        email := body.email.getD "",
        password := bcryptHashSync (body.password.getD "") salt } =
      Except.error "E11000 duplicate key error" := by
    have hany : db.any (fun w => w.username == body.username.getD "" ||
        w.email == body.email.getD "") = true := by
      simp [List.any_eq_true]
      exact ⟨v, hv, Or.inl hvname⟩
    simp [saveUser, hany]
  have heq : signupController env noFaults db newId salt now body =
      { resp := errorResponse 500, db := db } := by
    simp [signupController, hu, he, hp, hfind, hsave, noFaults]
  exact ⟨by rw [heq]; simp [errorResponse], heq⟩

/-- C10 witness: the concrete registration of a second alice under a
fresh email is answered 500, not 409, and persists nothing. -/
theorem C10_witness :
    signupController envOk noFaults dbAlice 2 5 100
        { username := some "alice", email := some "b@x.com", password := some "pw" } =
      { resp := errorResponse 500, db := dbAlice } :=
  (C10_username_dup_500 envOk dbAlice 2 5 100
    { username := some "alice", email := some "b@x.com", password := some "pw" } aliceRec
    (by decide) (by decide) (by decide) (by decide) (by decide) (by decide)).2

end TravelBucket
